import Mathlib

/-!
Verification of the resource-aggregation core of the asanamcp server.

The Rust sources are shallowly embedded: the HTTP transport is modelled by
oracle functions (an `Env` of per-endpoint responses, or a `step` function for
the paginator), response bodies are modelled by their JSON parse outcome
(`Option JsonValue`), machine integers by `Int`/`Nat`, and fallible code by
`Except`. Recursion whose termination depends on the remote service (page
chains, nested portfolios, subtask trees) is given explicit fuel; exhausting
the fuel yields `none`, which models divergence and never a program value.
Each embedded function keeps the name of the Rust function it translates.
Requests performed during a successful run are returned as a `List Req` trace
so that claims about which fetches happen can be stated.
-/

namespace Asana

/-- A JSON value, as produced by parsing a response body.  Numbers are
modelled as integers (no claim involves fractional numbers). -/
inductive JsonValue where
  | null
  | bool (b : Bool)
  | num (n : Int)
  | str (s : String)
  | arr (items : List JsonValue)
  | obj (fields : List (String × JsonValue))

/-- First value bound to `key` in an association list of JSON object fields. -/
def lookupField (fields : List (String × JsonValue)) (key : String) :
    Option JsonValue :=
  match fields with
  | [] => none
  | (k, v) :: rest => if k = key then some v else lookupField rest key

/-- `Error` from src/error.rs: the error enum of the client. The payloads of
`Http` and `Parse` are modelled as their display strings. -/
inductive Error where
  | missingToken
  | invalidToken
  | http (msg : String)
  | parse (msg : String)
  | api (message : String)
  | notFound (msg : String)
  deriving Repr, DecidableEq

/-- The `Display` rendering of `Error` (the `#[error(...)]` attributes in
src/error.rs), used by `e.to_string()` in the favorites resolver. -/
def Error.toMessage : Error → String
  | .missingToken => "ASANA_TOKEN environment variable is not set"
  | .invalidToken => "invalid token format"
  | .http m => "HTTP error: " ++ m
  | .parse m => "failed to parse response: " ++ m
  | .api m => "API error: " ++ m
  | .notFound m => "resource not found: " ++ m

/-- `StatusCode::canonical_reason` of the http crate: every status code the
library maps to a phrase; codes outside the table (including 509) yield
`none` exactly as in the library. -/
def canonicalReason : Nat → Option String
  | 100 => some "Continue"
  | 101 => some "Switching Protocols"
  | 102 => some "Processing"
  | 200 => some "OK"
  | 201 => some "Created"
  | 202 => some "Accepted"
  | 203 => some "Non-Authoritative Information"
  | 204 => some "No Content"
  | 205 => some "Reset Content"
  | 206 => some "Partial Content"
  | 207 => some "Multi-Status"
  | 208 => some "Already Reported"
  | 226 => some "IM Used"
  | 300 => some "Multiple Choices"
  | 301 => some "Moved Permanently"
  | 302 => some "Found"
  | 303 => some "See Other"
  | 304 => some "Not Modified"
  | 305 => some "Use Proxy"
  | 307 => some "Temporary Redirect"
  | 308 => some "Permanent Redirect"
  | 400 => some "Bad Request"
  | 401 => some "Unauthorized"
  | 402 => some "Payment Required"
  | 403 => some "Forbidden"
  | 404 => some "Not Found"
  | 405 => some "Method Not Allowed"
  | 406 => some "Not Acceptable"
  | 407 => some "Proxy Authentication Required"
  | 408 => some "Request Timeout"
  | 409 => some "Conflict"
  | 410 => some "Gone"
  | 411 => some "Length Required"
  | 412 => some "Precondition Failed"
  | 413 => some "Payload Too Large"
  | 414 => some "URI Too Long"
  | 415 => some "Unsupported Media Type"
  | 416 => some "Range Not Satisfiable"
  | 417 => some "Expectation Failed"
  | 418 => some "I\x27m a teapot"
  | 421 => some "Misdirected Request"
  | 422 => some "Unprocessable Entity"
  | 423 => some "Locked"
  | 424 => some "Failed Dependency"
  | 426 => some "Upgrade Required"
  | 428 => some "Precondition Required"
  | 429 => some "Too Many Requests"
  | 431 => some "Request Header Fields Too Large"
  | 451 => some "Unavailable For Legal Reasons"
  | 500 => some "Internal Server Error"
  | 501 => some "Not Implemented"
  | 502 => some "Bad Gateway"
  | 503 => some "Service Unavailable"
  | 504 => some "Gateway Timeout"
  | 505 => some "HTTP Version Not Supported"
  | 506 => some "Variant Also Negotiates"
  | 507 => some "Insufficient Storage"
  | 508 => some "Loop Detected"
  | 510 => some "Not Extended"
  | 511 => some "Network Authentication Required"
  | _ => none

/-- An HTTP response as observed by the error path of the client: the status
code and the outcome of parsing the body text as JSON (`none` when the body
is absent, unreadable, or not valid JSON). -/
structure HttpResponse where
  status : Nat
  body : Option JsonValue

/-- `StatusCode::is_success`: a 2xx status. -/
def statusIsSuccess (status : Nat) : Bool :=
  decide (200 ≤ status ∧ status < 300)

/-- Decode one element of the `errors` array as the serde struct
`ErrorDetail { message: String }` (unknown fields ignored). -/
def decodeErrorDetail : JsonValue → Option String
  | .obj fields =>
    match lookupField fields "message" with
    | some (.str s) => some s
    | _ => none
  | _ => none

/-- Decode every element of the `errors` array; any malformed element makes
the whole deserialization fail, as serde does for `Vec<ErrorDetail>`. -/
def decodeErrorList : List JsonValue → Option (List String)
  | [] => some []
  | x :: rest =>
    match decodeErrorDetail x, decodeErrorList rest with
    | some m, some ms => some (m :: ms)
    | _, _ => none

/-- Decode a body as the serde struct `ErrorResponse { errors: Vec<ErrorDetail> }`. -/
def decodeErrorResponse : JsonValue → Option (List String)
  | .obj fields =>
    match lookupField fields "errors" with
    | some (.arr xs) => decodeErrorList xs
    | _ => none
  | _ => none

/-- `extract_error_message` from src/client.rs: parse the body as
`{errors:[{message}]}` and take the first message, `none` on any failure or
an empty `errors` array. -/
def extract_error_message (body : Option JsonValue) : Option String :=
  match body with
  | none => none
  | some j =>
    match decodeErrorResponse j with
    | none => none
    | some msgs => msgs.head?

/-- `error_from_response` from src/client.rs: map a non-success response to a
typed error, 404 becoming `notFound` and everything else `api`, with the
message extracted from the body or built from a fallback. -/
def error_from_response (resp : HttpResponse) : Error :=
  if resp.status = 404 then
    .notFound ((extract_error_message resp.body).getD "resource not found")
  else
    .api ((extract_error_message resp.body).getD
      ("HTTP " ++ toString resp.status ++ " " ++ (canonicalReason resp.status).getD ""))

/-- `handle_empty_response` from src/client.rs: a success status is `Ok(())`
without touching the body; otherwise the error path runs. -/
def handle_empty_response (resp : HttpResponse) : Except Error Unit :=
  if statusIsSuccess resp.status then .ok () else .error (error_from_response resp)

/-- `post_empty` from src/client.rs, given the response the remote service
returns for the issued POST. -/
def post_empty (resp : HttpResponse) : Except Error Unit :=
  handle_empty_response resp

/-- `delete` from src/client.rs, given the response to the issued DELETE. -/
def deleteEmpty (resp : HttpResponse) : Except Error Unit :=
  handle_empty_response resp

/-- `delete_with_body` from src/client.rs, given the response to the issued
DELETE. -/
def delete_with_body (resp : HttpResponse) : Except Error Unit :=
  handle_empty_response resp

/-- `ListWrapper` from src/types.rs: one page of a paginated list response.
`next_page` carries the offset of `NextPage` when the cursor is non-null. -/
structure ListWrapper (α : Type) where
  data : List α
  next_page : Option String

/-- Append the `offset` query parameter exactly as the loop body of `get_all`
builds `query_with_offset`. -/
def queryWithOffset (query : List (String × String)) (offset : Option String) :
    List (String × String) :=
  match offset with
  | some off => query ++ [("offset", off)]
  | none => query

/-- The loop of `get_all` from src/client.rs.  `step` is the oracle for one
`get_list` call (the remote service, keyed by the full query), `acc` the
items collected so far, `reqs` the number of requests issued so far.  `fuel`
bounds the number of iterations; `none` models a loop that has not yet
terminated within the fuel. -/
def get_allLoop (step : List (String × String) → Except Error (ListWrapper α))
    (query : List (String × String)) :
    Nat → Option String → List α → Nat → Option (Except Error (List α × Nat))
  | 0, _, _, _ => none
  | fuel + 1, offset, acc, reqs =>
    match step (queryWithOffset query offset) with
    | .error e => some (.error e)
    | .ok wrapper =>
      let acc := acc ++ wrapper.data
      let reqs := reqs + 1
      match wrapper.next_page with
      | none => some (.ok (acc, reqs))
      | some off => get_allLoop step query fuel (some off) acc reqs

/-- `get_all` from src/client.rs: start the pagination loop with no offset,
no items and no requests issued. -/
def get_all (step : List (String × String) → Except Error (ListWrapper α))
    (query : List (String × String)) (fuel : Nat) :
    Option (Except Error (List α × Nat)) :=
  get_allLoop step query fuel none [] 0

/-- A page chain: following the cursors from `offset`, the remote service
serves exactly the pages `pages`, the last one with a null cursor and every
earlier one linking to the next request's offset. -/
inductive PageChain (step : List (String × String) → Except Error (ListWrapper α))
    (query : List (String × String)) : Option String → List (List α) → Prop where
  | last (offset : Option String) (d : List α)
      (h : step (queryWithOffset query offset) = .ok ⟨d, none⟩) :
      PageChain step query offset [d]
  | cons (offset : Option String) (d : List α) (c : String) (rest : List (List α))
      (h : step (queryWithOffset query offset) = .ok ⟨d, some c⟩)
      (htail : PageChain step query (some c) rest) :
      PageChain step query offset (d :: rest)

/-- A failing page chain: following the cursors from `offset`, the remote
service serves `k` pages and then fails with `e`. -/
inductive PageChainFail (step : List (String × String) → Except Error (ListWrapper α))
    (query : List (String × String)) : Option String → Nat → Error → Prop where
  | here (offset : Option String) (e : Error)
      (h : step (queryWithOffset query offset) = .error e) :
      PageChainFail step query offset 0 e
  | cons (offset : Option String) (d : List α) (c : String) (k : Nat) (e : Error)
      (h : step (queryWithOffset query offset) = .ok ⟨d, some c⟩)
      (htail : PageChainFail step query (some c) k e) :
      PageChainFail step query offset (k + 1) e

/-- `Resource` from src/types.rs: typed `gid` and optional `resource_type`,
with every other field kept in the open map (assoc list, in arrival order). -/
structure Resource where
  gid : String
  resource_type : Option String
  fields : List (String × JsonValue)

/-- Deserialization of `Resource` by serde with `#[serde(flatten)]`: `gid`
must be a JSON string, `resource_type` (if present) must be null or a string
(`Option<String>` with `#[serde(default)]`), and all remaining fields flow
into the open map in order. -/
def decodeResource : JsonValue → Option Resource
  | .obj fields =>
    let rest := fields.filter fun kv => kv.1 ≠ "gid" ∧ kv.1 ≠ "resource_type"
    match lookupField fields "gid" with
    | some (.str g) =>
      match lookupField fields "resource_type" with
      | none => some ⟨g, none, rest⟩
      | some .null => some ⟨g, none, rest⟩
      | some (.str t) => some ⟨g, some t, rest⟩
      | some _ => none
    | _ => none
  | _ => none

/-- Serialization of `Resource` by serde: the declared fields first (an
`Option` serializing as the value or null), then the flattened open map. -/
def encodeResource (r : Resource) : JsonValue :=
  .obj (("gid", .str r.gid) ::
    ("resource_type", match r.resource_type with
      | none => .null
      | some t => .str t) :: r.fields)

/-- The field list of an encoded object (an encoded `Resource` is always an
object). -/
def objFields : JsonValue → List (String × JsonValue)
  | .obj fields => fields
  | _ => []

/-- `PortfolioItem` from src/types.rs: the minimal reference used for type
dispatch while expanding a portfolio. -/
structure PortfolioItem where
  gid : String
  resource_type : String
  name : Option String

/-- `FavoriteItem` from src/types.rs: a favorite reference tagged with its
resource type. -/
structure FavoriteItem where
  gid : String
  resource_type : String
  name : Option String
  deriving DecidableEq

mutual
/-- `PortfolioItemExpanded` from src/types.rs: a fully fetched project, or a
nested portfolio with its own items. -/
inductive PortfolioItemExpanded where
  | project (r : Resource)
  | portfolio (p : PortfolioWithItems)

/-- `PortfolioWithItems` from src/types.rs: a portfolio's detail together
with its expanded items. -/
inductive PortfolioWithItems where
  | mk (portfolio : Resource) (items : List PortfolioItemExpanded)
end

/-- The portfolio detail of a `PortfolioWithItems`. -/
def PortfolioWithItems.portfolio : PortfolioWithItems → Resource
  | .mk p _ => p

/-- The expanded items of a `PortfolioWithItems`. -/
def PortfolioWithItems.items : PortfolioWithItems → List PortfolioItemExpanded
  | .mk _ items => items

/-- `FavoriteError` from src/types.rs: a favorite reference that failed to
resolve, with the error rendered as text. -/
structure FavoriteError where
  item : FavoriteItem
  error : String
  deriving DecidableEq

/-- `FavoritesResponse` from src/types.rs: resolved projects, resolved
portfolios, and per-item failures. -/
structure FavoritesResponse where
  projects : List Resource
  portfolios : List PortfolioWithItems
  errors : List FavoriteError

/-- One request issued against the remote service by the traversal code.
A paginated listing (issued through `get_all`) appears as one entry. -/
inductive Req where
  | portfolioDetail (gid : String)
  | portfolioItems (gid : String)
  | projectDetail (gid : String)
  | projectTasks (gid : String)
  | taskSubtasks (gid : String)
  | favoritesList (workspace : String) (resource_type : String)
  deriving DecidableEq

/-- The remote service as seen by the server code: one oracle per endpoint
shape.  Each function abstracts an entire (possibly paginated) fetch of that
endpoint, already decoded. -/
structure Env where
  getPortfolio : String → Except Error Resource
  getPortfolioItems : String → Except Error (List PortfolioItem)
  getProject : String → Except Error Resource
  getProjectTasks : String → Except Error (List Resource)
  getSubtasks : String → Except Error (List Resource)
  getFavorites : String → String → Except Error (List FavoriteItem)

/-- `depth_to_option` from src/server/helpers.rs: negative depth means
unlimited (`none`), zero or positive becomes `some`. -/
def depth_to_option (depth : Int) : Option Nat :=
  if depth < 0 then none else some depth.toNat

/-- The `for item_ref in item_refs` loop of `fetch_portfolio_with_depth`:
a `"project"` reference is fetched in full and wrapped as a leaf, a
`"portfolio"` reference recurses one level deeper through `recurse`, and any
other tag is skipped. -/
def expandPortfolioItems (env : Env)
    (recurse : String → Option Nat → Nat → Option (Except Error (PortfolioWithItems × List Req)))
    (max_depth : Option Nat) (current_depth : Nat) :
    List PortfolioItem → Option (Except Error (List PortfolioItemExpanded × List Req))
  | [] => some (.ok ([], []))
  | item_ref :: rest =>
    if item_ref.resource_type = "project" then
      match env.getProject item_ref.gid with
      | .error e => some (.error e)
      | .ok project =>
        match expandPortfolioItems env recurse max_depth current_depth rest with
        | none => none
        | some (.error e) => some (.error e)
        | some (.ok (items, log)) =>
          some (.ok (.project project :: items, .projectDetail item_ref.gid :: log))
    else if item_ref.resource_type = "portfolio" then
      match recurse item_ref.gid max_depth (current_depth + 1) with
      | none => none
      | some (.error e) => some (.error e)
      | some (.ok (nested, nestedLog)) =>
        match expandPortfolioItems env recurse max_depth current_depth rest with
        | none => none
        | some (.error e) => some (.error e)
        | some (.ok (items, log)) =>
          some (.ok (.portfolio nested :: items, nestedLog ++ log))
    else
      expandPortfolioItems env recurse max_depth current_depth rest

/-- `fetch_portfolio_with_depth` from src/server/mod.rs: fetch the
portfolio's detail, stop with empty items unless `current_depth` is below
`max_depth` (`none` meaning unlimited), otherwise list the item references
and expand each in order.  Successful runs also return the request trace,
in issue order.  `fuel` bounds the recursion into nested portfolios;
exhausting it yields `none` (the source recursion is unbounded). -/
def fetch_portfolio_with_depth (env : Env) :
    Nat → String → Option Nat → Nat →
      Option (Except Error (PortfolioWithItems × List Req))
  | 0 => fun _ _ _ => none
  | fuel + 1 => fun gid max_depth current_depth =>
    match env.getPortfolio gid with
    | .error e => some (.error e)
    | .ok portfolio =>
      let should_fetch_items :=
        match max_depth with
        | none => true
        | some max => decide (current_depth < max)
      if should_fetch_items then
        match env.getPortfolioItems gid with
        | .error e => some (.error e)
        | .ok item_refs =>
          match expandPortfolioItems env (fetch_portfolio_with_depth env fuel)
            max_depth current_depth item_refs with
          | none => none
          | some (.error e) => some (.error e)
          | some (.ok (items, log)) =>
            some (.ok (.mk portfolio items,
              .portfolioDetail gid :: .portfolioItems gid :: log))
      else
        some (.ok (.mk portfolio [], [.portfolioDetail gid]))

/-- `get_portfolio_recursive` from src/server/mod.rs: start the expansion at
depth zero. -/
def get_portfolio_recursive (env : Env) (fuel : Nat) (gid : String)
    (max_depth : Option Nat) :
    Option (Except Error (PortfolioWithItems × List Req)) :=
  fetch_portfolio_with_depth env fuel gid max_depth 0

/-- The subtask-count hint of a task:
`task.fields.get("num_subtasks").and_then(|v| v.as_u64()).unwrap_or(0)` from
`expand_subtasks_flat`.  `as_u64` succeeds only on a non-negative integer. -/
def numSubtasksHint (task : Resource) : Nat :=
  match lookupField task.fields "num_subtasks" with
  | some (.num n) => if 0 ≤ n then n.toNat else 0
  | _ => 0

/-- The `let max_depth = match subtask_depth ...` of `expand_subtasks_flat`:
a negative or absent subtask depth means unlimited. -/
def subtaskDepthToMax : Option Int → Option Nat
  | some d => if d < 0 then none else some d.toNat
  | none => none

/-- The `for task in tasks` loop of `expand_subtasks_flat`: push the task,
then, when subtask fetching is gated on and the subtask-count hint is
nonzero, fetch its subtasks and splice their expansion (through `recurse`,
one level deeper) right after it. -/
def expandTasksLoop (env : Env)
    (recurse : List Resource → Option Int → Nat → Option (Except Error (List Resource × List Req)))
    (subtask_depth : Option Int) (current_depth : Nat)
    (should_fetch_subtasks : Bool) :
    List Resource → Option (Except Error (List Resource × List Req))
  | [] => some (.ok ([], []))
  | task :: rest =>
    if should_fetch_subtasks && decide (0 < numSubtasksHint task) then
      match env.getSubtasks task.gid with
      | .error e => some (.error e)
      | .ok subtasks =>
        match recurse subtasks subtask_depth (current_depth + 1) with
        | none => none
        | some (.error e) => some (.error e)
        | some (.ok (expanded, subLog)) =>
          match expandTasksLoop env recurse subtask_depth current_depth
            should_fetch_subtasks rest with
          | none => none
          | some (.error e) => some (.error e)
          | some (.ok (tail, tailLog)) =>
            some (.ok (task :: expanded ++ tail,
              .taskSubtasks task.gid :: subLog ++ tailLog))
    else
      match expandTasksLoop env recurse subtask_depth current_depth
        should_fetch_subtasks rest with
      | none => none
      | some (.error e) => some (.error e)
      | some (.ok (tail, tailLog)) => some (.ok (task :: tail, tailLog))

/-- `expand_subtasks_flat` from src/server/mod.rs: convert the signed depth,
decide once whether this level may fetch subtasks, then run the task loop.
`fuel` bounds the recursion into subtask trees; exhausting it yields `none`
(the source recursion is unbounded). -/
def expand_subtasks_flat (env : Env) :
    Nat → List Resource → Option Int → Nat →
      Option (Except Error (List Resource × List Req))
  | 0 => fun _ _ _ => none
  | fuel + 1 => fun tasks subtask_depth current_depth =>
    let max_depth := subtaskDepthToMax subtask_depth
    let should_fetch_subtasks :=
      match max_depth with
      | none => true
      | some max => decide (current_depth < max)
    expandTasksLoop env (expand_subtasks_flat env fuel) subtask_depth
      current_depth should_fetch_subtasks tasks

/-- `get_tasks_from_project` from src/server/mod.rs: list the project's
tasks (one paginated call) and flatten their subtask trees from depth 0. -/
def get_tasks_from_project (env : Env) (fuel : Nat) (project_gid : String)
    (subtask_depth : Option Int) :
    Option (Except Error (List Resource × List Req)) :=
  match env.getProjectTasks project_gid with
  | .error e => some (.error e)
  | .ok tasks =>
    match expand_subtasks_flat env fuel tasks subtask_depth 0 with
    | none => none
    | some (.error e) => some (.error e)
    | some (.ok (flat, log)) =>
      some (.ok (flat, .projectTasks project_gid :: log))

mutual
/-- `collect_project_gids_from_portfolio` from src/server/mod.rs: the leaf
project gids of an expanded portfolio tree, depth-first. -/
def collect_project_gids_from_portfolio : PortfolioWithItems → List String
  | .mk _ items => collectProjectGidsOfItems items

/-- The `for item in &portfolio.items` loop of
`collect_project_gids_from_portfolio`. -/
def collectProjectGidsOfItems : List PortfolioItemExpanded → List String
  | [] => []
  | .project p :: rest => p.gid :: collectProjectGidsOfItems rest
  | .portfolio nested :: rest =>
    collect_project_gids_from_portfolio nested ++ collectProjectGidsOfItems rest
end

/-- The `for project_gid in project_gids` loop of `get_tasks_from_portfolio`:
a NotFound from one project's task fetch skips that project, any other
failure aborts the loop. -/
def portfolioTasksLoop (env : Env) (fuel : Nat) (subtask_depth : Option Int)
    (project_gids : List String) :
    Option (Except Error (List Resource × List Req)) :=
  match project_gids with
  | [] => some (.ok ([], []))
  | project_gid :: rest =>
    match get_tasks_from_project env fuel project_gid subtask_depth with
    | none => none
    | some (.ok (tasks, log)) =>
      match portfolioTasksLoop env fuel subtask_depth rest with
      | none => none
      | some (.error e) => some (.error e)
      | some (.ok (tail, tailLog)) => some (.ok (tasks ++ tail, log ++ tailLog))
    | some (.error (.notFound _)) => portfolioTasksLoop env fuel subtask_depth rest
    | some (.error e) => some (.error e)

/-- `get_tasks_from_portfolio` from src/server/mod.rs: expand the portfolio
tree (fail-fast), collect its leaf project gids, and gather each project's
flattened tasks, skipping projects whose task fetch returns NotFound. -/
def get_tasks_from_portfolio (env : Env) (fuel : Nat) (portfolio_gid : String)
    (subtask_depth : Option Int) (portfolio_depth : Int) :
    Option (Except Error (List Resource × List Req)) :=
  let depth : Option Nat :=
    if portfolio_depth < 0 then none else some portfolio_depth.toNat
  match get_portfolio_recursive env fuel portfolio_gid depth with
  | none => none
  | some (.error e) => some (.error e)
  | some (.ok (portfolio, portfolioLog)) =>
    match portfolioTasksLoop env fuel subtask_depth
      (collect_project_gids_from_portfolio portfolio) with
    | none => none
    | some (.error e) => some (.error e)
    | some (.ok (all_tasks, log)) => some (.ok (all_tasks, portfolioLog ++ log))

/-- Prepend one request to the trace of a successful run. -/
def prependReq (r : Req) :
    Option (Except Error (α × List Req)) → Option (Except Error (α × List Req))
  | some (.ok (a, log)) => some (.ok (a, r :: log))
  | other => other

/-- `get_tasks_recursive` from src/server/mod.rs: probe the identifier as a
project with a minimal-field fetch; on success follow the project path, on
NotFound fall back to the portfolio path, and propagate any other failure.
The probe request itself heads the trace of a successful run. -/
def get_tasks_recursive (env : Env) (fuel : Nat) (gid : String)
    (subtask_depth : Option Int) (portfolio_depth : Option Int) :
    Option (Except Error (List Resource × List Req)) :=
  let pd := portfolio_depth.getD 0
  match env.getProject gid with
  | .ok _ =>
    prependReq (.projectDetail gid) (get_tasks_from_project env fuel gid subtask_depth)
  | .error (.notFound _) =>
    prependReq (.projectDetail gid)
      (get_tasks_from_portfolio env fuel gid subtask_depth pd)
  | .error e => some (.error e)

/-- The favorite-projects loop of the `WorkspaceFavorites` handler in
src/server/mod.rs: fetch each reference's full project detail; a failure is
recorded as a `FavoriteError` carrying the reference and the rendered error,
and the loop continues. -/
def resolveFavoriteProjects (env : Env) :
    List FavoriteItem → List Resource × List FavoriteError
  | [] => ([], [])
  | item :: rest =>
    match env.getProject item.gid with
    | .ok project =>
      let (projects, errors) := resolveFavoriteProjects env rest
      (project :: projects, errors)
    | .error e =>
      let (projects, errors) := resolveFavoriteProjects env rest
      (projects, ⟨item, e.toMessage⟩ :: errors)

/-- The favorite-portfolios loop of the `WorkspaceFavorites` handler: expand
each reference recursively; a failure is recorded and the loop continues. -/
def resolveFavoritePortfolios (env : Env) (fuel : Nat) (depth : Option Nat) :
    List FavoriteItem → Option (List PortfolioWithItems × List FavoriteError)
  | [] => some ([], [])
  | item :: rest =>
    match get_portfolio_recursive env fuel item.gid depth with
    | none => none
    | some (.ok (portfolio, _)) =>
      match resolveFavoritePortfolios env fuel depth rest with
      | none => none
      | some (portfolios, errors) => some (portfolio :: portfolios, errors)
    | some (.error e) =>
      match resolveFavoritePortfolios env fuel depth rest with
      | none => none
      | some (portfolios, errors) =>
        some (portfolios, ⟨item, e.toMessage⟩ :: errors)

/-- The `ResourceType::WorkspaceFavorites` arm of `asana_get` in
src/server/mod.rs: list favorite projects and portfolios (each listing
fail-fast), resolve both groups tolerantly, and return the three groups.
The MCP wrapping of the result and of fail-fast errors is outside the
model; the `Error` is returned unchanged. -/
def workspaceFavorites (env : Env) (fuel : Nat) (workspace_gid : String)
    (depthParam : Option Int) : Option (Except Error FavoritesResponse) :=
  let depth := depth_to_option (depthParam.getD 0)
  match env.getFavorites workspace_gid "project" with
  | .error e => some (.error e)
  | .ok fav_projects =>
    let (projects, projectErrors) := resolveFavoriteProjects env fav_projects
    match env.getFavorites workspace_gid "portfolio" with
    | .error e => some (.error e)
    | .ok fav_portfolios =>
      match resolveFavoritePortfolios env fuel depth fav_portfolios with
      | none => none
      | some (portfolios, portfolioErrors) =>
        some (.ok ⟨projects, portfolios, projectErrors ++ portfolioErrors⟩)

/-- Modelled from the spec (§4.4, §3 FlatTaskList), for comparison with
`expand_subtasks_flat`: the depth-first flattening in which each parent task
is immediately followed by its expanded descendants, a task's subtasks being
fetched exactly when its subtask-count hint is nonzero and the current depth
is below the bound (`none` meaning unlimited), and a zero-hint task
contributing only itself.  `subs` gives each task's subtask list; `fuel`
bounds the descent. -/
def flatSpecGo (subs : String → List Resource) (max_depth : Option Nat)
    (descend : List Resource → Nat → Option (List Resource × List Req))
    (cur : Nat) : List Resource → Option (List Resource × List Req)
  | [] => some ([], [])
  | task :: rest =>
    let gate :=
      match max_depth with
      | none => true
      | some max => decide (cur < max)
    if gate && decide (0 < numSubtasksHint task) then
      match descend (subs task.gid) (cur + 1),
        flatSpecGo subs max_depth descend cur rest with
      | some (descendants, dLog), some (tail, tailLog) =>
        some (task :: descendants ++ tail,
          .taskSubtasks task.gid :: dLog ++ tailLog)
      | _, _ => none
    else
      match flatSpecGo subs max_depth descend cur rest with
      | some (tail, tailLog) => some (task :: tail, tailLog)
      | none => none

/-- The fuelled entry point of the model: `fuel` many levels of descent are
allowed below the current one. -/
def flatSpecModel (subs : String → List Resource) (max_depth : Option Nat) :
    Nat → Nat → List Resource → Option (List Resource × List Req)
  | 0 => fun cur tasks => flatSpecGo subs max_depth (fun _ _ => none) cur tasks
  | fuel + 1 => fun cur tasks =>
    flatSpecGo subs max_depth (fun ts c => flatSpecModel subs max_depth fuel c ts)
      cur tasks

/-! Concrete data used to exercise the theorems below. -/

/-- Portfolio P of the concrete scenario in the spec (§8). -/
def resP : Resource := ⟨"P", some "portfolio", []⟩

/-- Portfolio Q, nested inside P. -/
def resQ : Resource := ⟨"Q", some "portfolio", []⟩

/-- Project A, a direct item of P. -/
def resA : Resource := ⟨"A", some "project", []⟩

/-- Project B, an item of Q. -/
def resB : Resource := ⟨"B", some "project", []⟩

/-- The remote service of the concrete scenario: P holds [project A,
portfolio Q] in that order, and Q holds [project B]. -/
def envScenario : Env where
  getPortfolio g :=
    if g = "P" then .ok resP
    else if g = "Q" then .ok resQ
    else .error (.notFound "portfolio missing")
  getPortfolioItems g :=
    if g = "P" then .ok [⟨"A", "project", none⟩, ⟨"Q", "portfolio", none⟩]
    else if g = "Q" then .ok [⟨"B", "project", none⟩]
    else .error (.notFound "portfolio missing")
  getProject g :=
    if g = "A" then .ok resA
    else if g = "B" then .ok resB
    else .error (.notFound "project missing")
  getProjectTasks _ := .error (.notFound "project missing")
  getSubtasks _ := .ok []
  getFavorites _ _ := .ok []

/-- A remote list endpoint serving three pages linked by the cursors
`"page2"` and `"page3"`. -/
def stepPages : List (String × String) → Except Error (ListWrapper Nat)
  | [("limit", "50")] => .ok ⟨[1, 2], some "page2"⟩
  | [("limit", "50"), ("offset", "page2")] => .ok ⟨[3], some "page3"⟩
  | [("limit", "50"), ("offset", "page3")] => .ok ⟨[4, 5], none⟩
  | _ => .error (.api "unexpected request")

/-- A remote list endpoint whose second page fails. -/
def stepPagesFail : List (String × String) → Except Error (ListWrapper Nat)
  | [] => .ok ⟨[1], some "page2"⟩
  | [("offset", "page2")] => .error (.api "boom")
  | _ => .error (.api "unexpected request")

/-- A decoded payload with a `gid` and two fields unknown to the consumer
(the deserialization test of src/types.rs). -/
def roundtripFields : List (String × JsonValue) :=
  [("gid", .str "123"), ("name", .str "Test"), ("custom_field", .str "value")]

/-- Detail of the project used by the type-probe scenario. -/
def resProbe : Resource := ⟨"p1", some "project", []⟩

/-- Remote service for the type probe: `"p1"` is a project, `"x"` is a
portfolio (the project fetch 404s), and `"z"` answers the project probe with
a non-NotFound failure. -/
def envProbe : Env where
  getPortfolio g :=
    if g = "x" then .ok ⟨"x", some "portfolio", []⟩
    else .error (.notFound "portfolio missing")
  getPortfolioItems g :=
    if g = "x" then .ok [] else .error (.notFound "portfolio missing")
  getProject g :=
    if g = "p1" then .ok resProbe
    else if g = "z" then .error (.api "boom")
    else .error (.notFound "project missing")
  getProjectTasks g :=
    if g = "p1" then .ok [] else .error (.notFound "project missing")
  getSubtasks _ := .ok []
  getFavorites _ _ := .ok []

/-- The three favorite references of the partial-failure scenario. -/
def favRef1 : FavoriteItem := ⟨"f1", "project", some "First"⟩

/-- Second favorite reference; the only one that fails to resolve. -/
def favRef2 : FavoriteItem := ⟨"f2", "project", some "Second"⟩

/-- Third favorite reference. -/
def favRef3 : FavoriteItem := ⟨"f3", "project", some "Third"⟩

/-- Resolved detail of the first favorite. -/
def favRes1 : Resource := ⟨"f1", some "project", []⟩

/-- Resolved detail of the third favorite. -/
def favRes3 : Resource := ⟨"f3", some "project", []⟩

/-- Remote service for the favorites scenario: three favorite projects, the
second of which fails to resolve to full detail. -/
def envFavorites : Env where
  getPortfolio _ := .error (.notFound "portfolio missing")
  getPortfolioItems _ := .error (.notFound "portfolio missing")
  getProject g :=
    if g = "f1" then .ok favRes1
    else if g = "f3" then .ok favRes3
    else .error (.notFound "nope")
  getProjectTasks _ := .error (.notFound "project missing")
  getSubtasks _ := .ok []
  getFavorites _ t :=
    if t = "project" then .ok [favRef1, favRef2, favRef3] else .ok []

/-- A task of the first project of the container scenario. -/
def taskA : Resource := ⟨"ta", none, []⟩

/-- A task of the third project of the container scenario. -/
def taskC : Resource := ⟨"tc", none, []⟩

/-- Remote service for the container-path scenario: portfolio `"PF"` holds
three projects; the second project's task listing 404s, and project `"gx"`
(reachable directly) fails its task listing with an Api error. -/
def envContainer : Env where
  getPortfolio g :=
    if g = "PF" then .ok ⟨"PF", some "portfolio", []⟩
    else .error (.notFound "portfolio missing")
  getPortfolioItems g :=
    if g = "PF" then
      .ok [⟨"g1", "project", none⟩, ⟨"g2", "project", none⟩, ⟨"g3", "project", none⟩]
    else .error (.notFound "portfolio missing")
  getProject g :=
    if g = "g1" ∨ g = "g2" ∨ g = "g3" then .ok ⟨g, some "project", []⟩
    else .error (.notFound "project missing")
  getProjectTasks g :=
    if g = "g1" then .ok [taskA]
    else if g = "g2" then .error (.notFound "gone")
    else if g = "g3" then .ok [taskC]
    else if g = "gx" then .error (.api "boom")
    else .error (.notFound "project missing")
  getSubtasks _ := .ok []
  getFavorites _ _ := .ok []

/-- Parent task with two subtasks (`num_subtasks` hint 2). -/
def taskT1 : Resource := ⟨"t1", none, [("num_subtasks", .num 2)]⟩

/-- Sibling task with no subtasks. -/
def taskT2 : Resource := ⟨"t2", none, [("num_subtasks", .num 0)]⟩

/-- First subtask of `taskT1`. -/
def taskS1 : Resource := ⟨"s1", none, []⟩

/-- Second subtask of `taskT1`. -/
def taskS2 : Resource := ⟨"s2", none, []⟩

/-- The subtask map of the flattening scenario. -/
def subsDemo (g : String) : List Resource :=
  if g = "t1" then [taskS1, taskS2] else []

/-- Remote service for the flattening scenario; its subtask endpoint always
succeeds and serves `subsDemo`. -/
def envTasks : Env where
  getPortfolio _ := .error (.notFound "portfolio missing")
  getPortfolioItems _ := .error (.notFound "portfolio missing")
  getProject _ := .error (.notFound "project missing")
  getProjectTasks g :=
    if g = "proj" then .ok [taskT1, taskT2] else .error (.notFound "project missing")
  getSubtasks g := .ok (subsDemo g)
  getFavorites _ _ := .ok []

/-! Theorems. -/

/-- C10: for the empty-response operations (`post_empty`, `delete`,
`delete_with_body`), any 2xx response is reported as success without the
body being read: the outcome is independent of the body, so no body can
produce a Parse failure (or any failure) for these operations. -/
theorem empty_response_no_parse_c10 (status : Nat) (b b' : Option JsonValue)
    (h : statusIsSuccess status = true) :
    post_empty ⟨status, b⟩ = .ok () ∧
    deleteEmpty ⟨status, b⟩ = .ok () ∧
    delete_with_body ⟨status, b⟩ = .ok () ∧
    post_empty ⟨status, b⟩ = post_empty ⟨status, b'⟩ ∧
    (∀ e, post_empty ⟨status, b⟩ ≠ .error e) := by
  simp [post_empty, deleteEmpty, delete_with_body, handle_empty_response, h]

/-- Witness for C10 at status 200 with a body that is not an envelope. -/
theorem empty_response_no_parse_c10_witness :
    post_empty ⟨200, some (.str "not an envelope")⟩ = .ok () ∧
    deleteEmpty ⟨200, some (.str "not an envelope")⟩ = .ok () ∧
    delete_with_body ⟨200, some (.str "not an envelope")⟩ = .ok () ∧
    post_empty ⟨200, some (.str "not an envelope")⟩ = post_empty ⟨200, none⟩ ∧
    (∀ e, post_empty ⟨200, some (.str "not an envelope")⟩ ≠ .error e) :=
  empty_response_no_parse_c10 200 (some (.str "not an envelope")) none (by decide)

/-- The pagination loop on a page chain: starting anywhere in the chain, it
appends the remaining pages to the accumulator, one request per page. -/
theorem get_allLoop_chain {α : Type}
    (step : List (String × String) → Except Error (ListWrapper α))
    (query : List (String × String)) {off : Option String} {pages : List (List α)}
    (h : PageChain step query off pages) :
    ∀ (acc : List α) (reqs fuel : Nat), pages.length ≤ fuel →
      get_allLoop step query fuel off acc reqs =
        some (.ok (acc ++ pages.flatten, reqs + pages.length)) := by
  induction h with
  | last off d hstep =>
    intro acc reqs fuel hfuel
    match fuel, hfuel with
    | fuel + 1, _ => simp [get_allLoop, hstep]
  | cons off d c rest hstep htail ih =>
    intro acc reqs fuel hfuel
    match fuel, hfuel with
    | fuel + 1, hfuel =>
      have hlen : rest.length ≤ fuel := by
        simpa using Nat.succ_le_succ_iff.mp (by simpa using hfuel)
      simp [get_allLoop, hstep, ih (acc ++ d) (reqs + 1) fuel hlen]
      omega

/-- The pagination loop on a failing chain: the failure surfaces as the
result, with no partial value. -/
theorem get_allLoop_fail {α : Type}
    (step : List (String × String) → Except Error (ListWrapper α))
    (query : List (String × String)) {off : Option String} {k : Nat} {e : Error}
    (h : PageChainFail step query off k e) :
    ∀ (acc : List α) (reqs fuel : Nat), k < fuel →
      get_allLoop step query fuel off acc reqs = some (.error e) := by
  induction h with
  | here off e hstep =>
    intro acc reqs fuel hfuel
    match fuel, hfuel with
    | fuel + 1, _ => simp [get_allLoop, hstep]
  | cons off d c k e hstep htail ih =>
    intro acc reqs fuel hfuel
    match fuel, hfuel with
    | fuel + 1, hfuel =>
      have hk : k < fuel := by omega
      simp [get_allLoop, hstep, ih (acc ++ d) (reqs + 1) fuel hk]

/-- C2: on a chain of pages P1..Pn linked by cursors (the paginator sending
each non-null `next_page` offset back as the `offset` query parameter, the
last page carrying a null cursor), `get_all` returns the concatenation of
all pages in arrival order and issues exactly n requests; a failure on any
page makes the whole call return that failure and nothing else. -/
theorem pagination_completeness_c2 {α : Type}
    (step : List (String × String) → Except Error (ListWrapper α))
    (query : List (String × String)) (pages : List (List α)) (k : Nat)
    (e : Error) (fuel : Nat) :
    (PageChain step query none pages → pages.length ≤ fuel →
      get_all step query fuel = some (.ok (pages.flatten, pages.length))) ∧
    (PageChainFail step query none k e → k < fuel →
      get_all step query fuel = some (.error e)) := by
  constructor
  · intro h hfuel
    simpa [get_all] using get_allLoop_chain step query h [] 0 fuel hfuel
  · intro h hfuel
    simpa [get_all] using get_allLoop_fail step query h [] 0 fuel hfuel

/-- Witness for C2: a three-page chain concatenated in order with three
requests, and a chain failing on its second page aborting the call. -/
theorem pagination_completeness_c2_witness :
    get_all stepPages [("limit", "50")] 3 = some (.ok ([1, 2, 3, 4, 5], 3)) ∧
    get_all stepPagesFail [] 3 = some (.error (.api "boom")) := by
  constructor
  · have hchain : PageChain stepPages [("limit", "50")] none [[1, 2], [3], [4, 5]] :=
      .cons _ _ _ _ rfl (.cons _ _ _ _ rfl (.last _ _ rfl))
    simpa using (pagination_completeness_c2 stepPages [("limit", "50")]
      [[1, 2], [3], [4, 5]] 0 (.api "x") 3).1 hchain (by decide)
  · have hfail : PageChainFail stepPagesFail [] none 1 (.api "boom") :=
      .cons _ _ _ _ _ rfl (.here _ _ rfl)
    exact (pagination_completeness_c2 stepPagesFail [] [] 1 (.api "boom") 3).2
      hfail (by decide)

/-- In an object with pairwise-distinct keys, lookup finds exactly the entry
present in the field list. -/
theorem lookupField_eq_of_mem {l : List (String × JsonValue)} {k : String}
    {v : JsonValue} (hnodup : (l.map Prod.fst).Nodup) (hmem : (k, v) ∈ l) :
    lookupField l k = some v := by
  induction l with
  | nil => cases hmem
  | cons hd tl ih =>
    obtain ⟨k₀, v₀⟩ := hd
    rcases List.mem_cons.mp hmem with heq | hmem'
    · obtain ⟨rfl, rfl⟩ := Prod.mk.injEq .. ▸ heq
      simp [lookupField]
    · have hne : k₀ ≠ k := by
        rintro rfl
        exact (List.nodup_cons.mp (by simpa using hnodup)).1
          (List.mem_map_of_mem Prod.fst hmem')
      simpa [lookupField, hne] using
        ih (List.nodup_cons.mp (by simpa using hnodup)).2 hmem'

/-- C3: decoding a JSON object that carries a `gid` (and whose
`resource_type`, if present, is a string or null) into a `Resource` and
re-encoding it preserves every original key and value, with `gid` appearing
exactly once among the encoded keys and never inside the open field map. -/
theorem resource_roundtrip_c3 (fields : List (String × JsonValue)) (g : String)
    (hnodup : (fields.map Prod.fst).Nodup)
    (hgid : lookupField fields "gid" = some (.str g))
    (hrt : ∀ v, lookupField fields "resource_type" = some v →
      v = .null ∨ ∃ s, v = .str s) :
    ∃ r, decodeResource (.obj fields) = some r ∧
      (∀ kv ∈ fields, kv ∈ objFields (encodeResource r)) ∧
      ((objFields (encodeResource r)).map Prod.fst).count "gid" = 1 ∧
      (∀ v, ("gid", v) ∉ r.fields) := by
  set rest := fields.filter
    (fun kv => kv.1 ≠ "gid" ∧ kv.1 ≠ "resource_type") with hrest
  have hrestGid : ∀ v, ("gid", v) ∉ rest := by
    intro v hv
    have := (List.mem_filter.mp hv).2
    simp at this
  have hrestKeys : "gid" ∉ rest.map Prod.fst := by
    intro hk
    obtain ⟨⟨k', v'⟩, hmem, hk'⟩ := List.mem_map.mp hk
    have hk2 : k' = "gid" := hk'
    subst hk2
    exact hrestGid v' hmem
  have hmemPreserved : ∀ rt, ∀ kv ∈ fields,
      kv ∈ ("gid", JsonValue.str g) :: ("resource_type", rt) :: rest ∨
        (kv.1 = "resource_type" ∧ lookupField fields "resource_type" = some kv.2) := by
    intro rt kv hkv
    obtain ⟨k, v⟩ := kv
    by_cases hk : k = "gid"
    · subst hk
      have hlook := lookupField_eq_of_mem hnodup hkv
      rw [hgid] at hlook
      have hvg : v = JsonValue.str g := (Option.some.inj hlook).symm
      subst hvg
      left
      simp
    · by_cases hk' : k = "resource_type"
      · subst hk'
        exact Or.inr ⟨rfl, lookupField_eq_of_mem hnodup hkv⟩
      · left
        have : (k, v) ∈ rest := by
          rw [hrest]
          exact List.mem_filter.mpr ⟨hkv, by simp [hk, hk']⟩
        simp [this]
  have hcount : ∀ rt,
      ((("gid", JsonValue.str g) :: ("resource_type", rt) :: rest).map
        Prod.fst).count "gid" = 1 := by
    intro rt
    simp [List.count_cons, List.count_eq_zero.mpr hrestKeys]
  cases hv : lookupField fields "resource_type" with
  | none =>
    refine ⟨⟨g, none, rest⟩, ?_, ?_, ?_, ?_⟩
    · simp [decodeResource, hgid, hv, hrest]
    · intro kv hkv
      rcases hmemPreserved JsonValue.null kv hkv with hmem | ⟨_, habs⟩
      · simpa [encodeResource, objFields] using hmem
      · rw [hv] at habs; cases habs
    · simpa [encodeResource, objFields] using hcount JsonValue.null
    · exact hrestGid
  | some v =>
    rcases hrt v hv with rfl | ⟨s, rfl⟩
    · refine ⟨⟨g, none, rest⟩, ?_, ?_, ?_, ?_⟩
      · simp [decodeResource, hgid, hv, hrest]
      · intro kv hkv
        rcases hmemPreserved JsonValue.null kv hkv with hmem | ⟨hk, hlook⟩
        · simpa [encodeResource, objFields] using hmem
        · obtain ⟨k, v'⟩ := kv
          have hk2 : k = "resource_type" := hk
          subst hk2
          rw [hv] at hlook
          have hv2 : v' = JsonValue.null := (Option.some.inj hlook).symm
          subst hv2
          simp [encodeResource, objFields]
      · simpa [encodeResource, objFields] using hcount JsonValue.null
      · exact hrestGid
    · refine ⟨⟨g, some s, rest⟩, ?_, ?_, ?_, ?_⟩
      · simp [decodeResource, hgid, hv, hrest]
      · intro kv hkv
        rcases hmemPreserved (JsonValue.str s) kv hkv with hmem | ⟨hk, hlook⟩
        · simpa [encodeResource, objFields] using hmem
        · obtain ⟨k, v'⟩ := kv
          have hk2 : k = "resource_type" := hk
          subst hk2
          rw [hv] at hlook
          have hv2 : v' = JsonValue.str s := (Option.some.inj hlook).symm
          subst hv2
          simp [encodeResource, objFields]
      · simpa [encodeResource, objFields] using hcount (JsonValue.str s)
      · exact hrestGid

/-- Witness for C3 on a payload with two fields unknown to the consumer. -/
theorem resource_roundtrip_c3_witness :
    ∃ r, decodeResource (.obj roundtripFields) = some r ∧
      (∀ kv ∈ roundtripFields, kv ∈ objFields (encodeResource r)) ∧
      ((objFields (encodeResource r)).map Prod.fst).count "gid" = 1 ∧
      (∀ v, ("gid", v) ∉ r.fields) :=
  resource_roundtrip_c3 roundtripFields "123" (by decide) rfl
    (by intro v h; simp [roundtripFields, lookupField] at h)

/-- C4: the task expander first fetches the identifier as a project; success
selects the project path, a NotFound failure selects the container path, and
any other failure is propagated unchanged — no third outcome exists. -/
theorem type_probe_fallback_c4 (env : Env) (fuel : Nat) (gid : String)
    (subtask_depth portfolio_depth : Option Int) :
    (∀ r, env.getProject gid = .ok r →
      get_tasks_recursive env fuel gid subtask_depth portfolio_depth =
        prependReq (.projectDetail gid)
          (get_tasks_from_project env fuel gid subtask_depth)) ∧
    (∀ m, env.getProject gid = .error (.notFound m) →
      get_tasks_recursive env fuel gid subtask_depth portfolio_depth =
        prependReq (.projectDetail gid)
          (get_tasks_from_portfolio env fuel gid subtask_depth
            (portfolio_depth.getD 0))) ∧
    (∀ e, env.getProject gid = .error e → (∀ m, e ≠ .notFound m) →
      get_tasks_recursive env fuel gid subtask_depth portfolio_depth =
        some (.error e)) := by
  refine ⟨fun r h => ?_, fun m h => ?_, fun e h hne => ?_⟩
  · simp [get_tasks_recursive, h]
  · simp [get_tasks_recursive, h]
  · cases e with
    | notFound m => exact absurd rfl (hne m)
    | missingToken => simp [get_tasks_recursive, h]
    | invalidToken => simp [get_tasks_recursive, h]
    | http msg => simp [get_tasks_recursive, h]
    | parse msg => simp [get_tasks_recursive, h]
    | api msg => simp [get_tasks_recursive, h]

/-- Witness for C4: the same expander follows the project path for `"p1"`,
the container path for `"x"` (whose project probe 404s), and surfaces the
Api failure of `"z"` unchanged. -/
theorem type_probe_fallback_c4_witness :
    get_tasks_recursive envProbe 1 "p1" (some 0) none =
      some (.ok ([], [.projectDetail "p1", .projectTasks "p1"])) ∧
    get_tasks_recursive envProbe 1 "x" (some 0) none =
      some (.ok ([], [.projectDetail "x", .portfolioDetail "x"])) ∧
    get_tasks_recursive envProbe 1 "z" (some 0) none =
      some (.error (.api "boom")) := by
  refine ⟨?_, ?_, ?_⟩
  · exact ((type_probe_fallback_c4 envProbe 1 "p1" (some 0) none).1
      resProbe rfl).trans rfl
  · exact ((type_probe_fallback_c4 envProbe 1 "x" (some 0) none).2.1
      "project missing" rfl).trans rfl
  · exact (type_probe_fallback_c4 envProbe 1 "z" (some 0) none).2.2
      (.api "boom") rfl (fun m h => Error.noConfusion h)

/-- When the depth gate blocks (`current_depth` not below the bound), one
step of the portfolio expander returns the bare detail with no items and
performs only the detail request. -/
theorem fetch_gate_blocked (env : Env) (fuel : Nat) (gid : String)
    (max cur : Nat) (h : ¬ cur < max) :
    fetch_portfolio_with_depth env (fuel + 1) gid (some max) cur =
      some (match env.getPortfolio gid with
        | .ok p => .ok (.mk p [], [.portfolioDetail gid])
        | .error e => .error e) := by
  cases henv : env.getPortfolio gid <;>
    simp [fetch_portfolio_with_depth, henv, h]

/-- When the depth gate passes, any successful step of the portfolio
expander has the item-listing request in its trace. -/
theorem fetch_items_logged (env : Env) (fuel : Nat) (gid : String)
    (maxd : Option Nat) (cur : Nat) (node : PortfolioWithItems) (log : List Req)
    (hgate : (match maxd with
      | none => true
      | some max => decide (cur < max)) = true)
    (heq : fetch_portfolio_with_depth env (fuel + 1) gid maxd cur =
      some (.ok (node, log))) :
    Req.portfolioItems gid ∈ log := by
  cases henv : env.getPortfolio gid with
  | error e => simp [fetch_portfolio_with_depth, henv] at heq
  | ok p =>
    cases hitems : env.getPortfolioItems gid with
    | error e =>
      simp [fetch_portfolio_with_depth, henv, hgate, hitems] at heq
    | ok refs =>
      cases hexp : expandPortfolioItems env (fetch_portfolio_with_depth env fuel)
        maxd cur refs with
      | none => simp [fetch_portfolio_with_depth, henv, hgate, hitems, hexp] at heq
      | some r =>
        cases r with
        | error e =>
          simp [fetch_portfolio_with_depth, henv, hgate, hitems, hexp] at heq
        | ok pr =>
          obtain ⟨items, ilog⟩ := pr
          simp [fetch_portfolio_with_depth, henv, hgate, hitems, hexp] at heq
          rcases heq with ⟨-, hlog⟩
          rw [← hlog]
          simp

/-- C1: the concrete scenario — expanding P (holding [project A, portfolio
Q], Q holding [project B]) to depth 1 yields [Leaf(A), Nested(Q empty)] in
order, with neither B's detail nor Q's item list fetched; in general a level
whose depth has reached a non-negative bound returns empty children after
only the detail request, a level below the bound lists items on every
successful run, and a negative depth parameter means unlimited (the item
listing then happening at every successful level). -/
theorem portfolio_tree_expansion_c1 :
    (get_portfolio_recursive envScenario 2 "P" (depth_to_option 1) =
      some (.ok (.mk resP [.project resA, .portfolio (.mk resQ [])],
        [.portfolioDetail "P", .portfolioItems "P", .projectDetail "A",
          .portfolioDetail "Q"]))) ∧
    (Req.projectDetail "B" ∉ ([.portfolioDetail "P", .portfolioItems "P",
        .projectDetail "A", .portfolioDetail "Q"] : List Req) ∧
      Req.portfolioItems "Q" ∉ ([.portfolioDetail "P", .portfolioItems "P",
        .projectDetail "A", .portfolioDetail "Q"] : List Req)) ∧
    (∀ (env : Env) (fuel : Nat) (gid : String) (max cur : Nat), ¬ cur < max →
      fetch_portfolio_with_depth env (fuel + 1) gid (some max) cur =
        some (match env.getPortfolio gid with
          | .ok p => .ok (.mk p [], [.portfolioDetail gid])
          | .error e => .error e)) ∧
    (∀ (env : Env) (fuel : Nat) (gid : String) (max cur : Nat)
        (node : PortfolioWithItems) (log : List Req), cur < max →
      fetch_portfolio_with_depth env (fuel + 1) gid (some max) cur =
        some (.ok (node, log)) → Req.portfolioItems gid ∈ log) ∧
    (∀ d : Int, d < 0 → depth_to_option d = none) ∧
    (∀ (env : Env) (fuel : Nat) (gid : String) (cur : Nat)
        (node : PortfolioWithItems) (log : List Req),
      fetch_portfolio_with_depth env (fuel + 1) gid none cur =
        some (.ok (node, log)) → Req.portfolioItems gid ∈ log) := by
  refine ⟨rfl, by decide, fun env fuel gid max cur h => fetch_gate_blocked env fuel gid max cur h,
    fun env fuel gid max cur node log hlt heq => ?_,
    fun d hd => by simp [depth_to_option, hd],
    fun env fuel gid cur node log heq => ?_⟩
  · exact fetch_items_logged env fuel gid (some max) cur node log
      (by simpa using hlt) heq
  · exact fetch_items_logged env fuel gid none cur node log rfl heq

/-- Witness for C1: the gate facts instantiated — Q itself at depth 1 stops
with empty children, the successful scenario run has P's item listing in its
trace, and depth −1 converts to unlimited. -/
theorem portfolio_tree_expansion_c1_witness :
    fetch_portfolio_with_depth envScenario 1 "Q" (some 1) 1 =
      some (.ok (.mk resQ [], [.portfolioDetail "Q"])) ∧
    Req.portfolioItems "P" ∈ ([.portfolioDetail "P", .portfolioItems "P",
      .projectDetail "A", .portfolioDetail "Q"] : List Req) ∧
    depth_to_option (-1) = none := by
  refine ⟨?_, ?_, ?_⟩
  · exact (portfolio_tree_expansion_c1.2.2.1 envScenario 0 "Q" 1 1
      (by omega)).trans rfl
  · exact portfolio_tree_expansion_c1.2.2.2.1 envScenario 1 "P" 1 0
      (.mk resP [.project resA, .portfolio (.mk resQ [])])
      [.portfolioDetail "P", .portfolioItems "P", .projectDetail "A",
        .portfolioDetail "Q"] (by omega) portfolio_tree_expansion_c1.1
  · exact portfolio_tree_expansion_c1.2.2.2.2.1 (-1) (by omega)

/-- C8: expanding any container at depth 0 returns exactly its own detail
with an empty children list, the trace holding only the detail request — no
item listing happens, whatever the container holds. -/
theorem depth_zero_termination_c8 (env : Env) (fuel : Nat) (gid : String)
    (p : Resource) (h : env.getPortfolio gid = .ok p) :
    get_portfolio_recursive env (fuel + 1) gid (depth_to_option 0) =
      some (.ok (.mk p [], [.portfolioDetail gid])) ∧
    Req.portfolioItems gid ∉ ([Req.portfolioDetail gid] : List Req) := by
  constructor
  · have hstep := fetch_gate_blocked env fuel gid 0 0 (by omega)
    rw [h] at hstep
    simpa [get_portfolio_recursive, depth_to_option] using hstep
  · simp

/-- Witness for C8 on the scenario service, whose portfolio P holds two
items: depth 0 still returns it alone. -/
theorem depth_zero_termination_c8_witness :
    get_portfolio_recursive envScenario 1 "P" (depth_to_option 0) =
      some (.ok (.mk resP [], [.portfolioDetail "P"])) ∧
    Req.portfolioItems "P" ∉ ([Req.portfolioDetail "P"] : List Req) :=
  depth_zero_termination_c8 envScenario 0 "P" resP rfl

/-- The task-collection loop over project gids that all either succeed or
404: every 404 project is skipped, every other contributes its tasks, in
input order. -/
theorem portfolioTasksLoop_ok (env : Env) (fuel : Nat) (sd : Option Int) :
    ∀ gids : List String,
      (∀ g ∈ gids,
        (∃ v, get_tasks_from_project env fuel g sd = some (.ok v)) ∨
        (∃ m, get_tasks_from_project env fuel g sd = some (.error (.notFound m)))) →
      portfolioTasksLoop env fuel sd gids =
        some (.ok (
          (gids.filterMap fun g =>
            match get_tasks_from_project env fuel g sd with
            | some (.ok (ts, _)) => some ts
            | _ => none).flatten,
          (gids.filterMap fun g =>
            match get_tasks_from_project env fuel g sd with
            | some (.ok (_, l)) => some l
            | _ => none).flatten)) := by
  intro gids
  induction gids with
  | nil => intro _; simp [portfolioTasksLoop]
  | cons g rest ih =>
    intro h
    have hrest := ih fun g' hg' => h g' (List.mem_cons_of_mem _ hg')
    rcases h g (List.mem_cons_self _ _) with ⟨⟨ts, l⟩, hok⟩ | ⟨m, hnf⟩
    · simp [portfolioTasksLoop, hok, hrest]
    · simp [portfolioTasksLoop, hnf, hrest]

/-- The task-collection loop aborts with the first non-NotFound failure,
returning it alone. -/
theorem portfolioTasksLoop_abort (env : Env) (fuel : Nat) (sd : Option Int) :
    ∀ (pre : List String) (g : String) (post : List String) (e : Error),
      (∀ p ∈ pre,
        (∃ v, get_tasks_from_project env fuel p sd = some (.ok v)) ∨
        (∃ m, get_tasks_from_project env fuel p sd = some (.error (.notFound m)))) →
      get_tasks_from_project env fuel g sd = some (.error e) →
      (∀ m, e ≠ .notFound m) →
      portfolioTasksLoop env fuel sd (pre ++ g :: post) = some (.error e) := by
  intro pre
  induction pre with
  | nil =>
    intro g post e _ hg hne
    cases e with
    | notFound m => exact absurd rfl (hne m)
    | missingToken => simp [portfolioTasksLoop, hg]
    | invalidToken => simp [portfolioTasksLoop, hg]
    | http msg => simp [portfolioTasksLoop, hg]
    | parse msg => simp [portfolioTasksLoop, hg]
    | api msg => simp [portfolioTasksLoop, hg]
  | cons p rest ih =>
    intro g post e hpre hg hne
    have htail := ih g post e
      (fun p' hp' => hpre p' (List.mem_cons_of_mem _ hp')) hg hne
    rcases hpre p (List.mem_cons_self _ _) with ⟨⟨ts, l⟩, hok⟩ | ⟨m, hnf⟩
    · simp [portfolioTasksLoop, hok, htail]
    · simp [portfolioTasksLoop, hnf, htail]

/-- C6: on the container path, a NotFound while listing one reachable
project's tasks only skips that project (the walk continues, other tasks
kept in order), any other failure aborts the whole collection; the container
expansion itself is fail-fast, any of its failures aborting the entire
call. -/
theorem container_path_tolerance_c6 :
    (∀ (env : Env) (fuel : Nat) (portfolio_gid : String) (sd : Option Int)
        (pd : Int) (e : Error),
      get_portfolio_recursive env fuel portfolio_gid
          (if pd < 0 then none else some pd.toNat) = some (.error e) →
      get_tasks_from_portfolio env fuel portfolio_gid sd pd = some (.error e)) ∧
    (∀ (env : Env) (fuel : Nat) (sd : Option Int) (gids : List String),
      (∀ g ∈ gids,
        (∃ v, get_tasks_from_project env fuel g sd = some (.ok v)) ∨
        (∃ m, get_tasks_from_project env fuel g sd = some (.error (.notFound m)))) →
      portfolioTasksLoop env fuel sd gids =
        some (.ok (
          (gids.filterMap fun g =>
            match get_tasks_from_project env fuel g sd with
            | some (.ok (ts, _)) => some ts
            | _ => none).flatten,
          (gids.filterMap fun g =>
            match get_tasks_from_project env fuel g sd with
            | some (.ok (_, l)) => some l
            | _ => none).flatten))) ∧
    (∀ (env : Env) (fuel : Nat) (sd : Option Int) (pre : List String)
        (g : String) (post : List String) (e : Error),
      (∀ p ∈ pre,
        (∃ v, get_tasks_from_project env fuel p sd = some (.ok v)) ∨
        (∃ m, get_tasks_from_project env fuel p sd = some (.error (.notFound m)))) →
      get_tasks_from_project env fuel g sd = some (.error e) →
      (∀ m, e ≠ .notFound m) →
      portfolioTasksLoop env fuel sd (pre ++ g :: post) = some (.error e)) := by
  refine ⟨fun env fuel pg sd pd e h => ?_,
    fun env fuel sd gids h => portfolioTasksLoop_ok env fuel sd gids h,
    fun env fuel sd pre g post e hpre hg hne =>
      portfolioTasksLoop_abort env fuel sd pre g post e hpre hg hne⟩
  simp [get_tasks_from_portfolio, h]

/-- Witness for C6: a failing container expansion aborts; over projects
[g1, g2, g3] where g2's tasks 404, the loop keeps g1's and g3's tasks in
order; a non-NotFound failure on gx aborts the loop. -/
theorem container_path_tolerance_c6_witness :
    get_tasks_from_portfolio envContainer 1 "nope" (some 0) 1 =
      some (.error (.notFound "portfolio missing")) ∧
    portfolioTasksLoop envContainer 1 (some 0) ["g1", "g2", "g3"] =
      some (.ok ([taskA, taskC], [.projectTasks "g1", .projectTasks "g3"])) ∧
    portfolioTasksLoop envContainer 1 (some 0) ["g1", "gx"] =
      some (.error (.api "boom")) := by
  refine ⟨?_, ?_, ?_⟩
  · exact container_path_tolerance_c6.1 envContainer 1 "nope" (some 0) 1
      (.notFound "portfolio missing") rfl
  · have h := container_path_tolerance_c6.2.1 envContainer 1 (some 0)
      ["g1", "g2", "g3"] (by
        intro g hg
        simp only [List.mem_cons, List.not_mem_nil, or_false] at hg
        rcases hg with rfl | rfl | rfl
        · exact Or.inl ⟨([taskA], [.projectTasks "g1"]), rfl⟩
        · exact Or.inr ⟨"gone", rfl⟩
        · exact Or.inl ⟨([taskC], [.projectTasks "g3"]), rfl⟩)
    exact h.trans rfl
  · exact container_path_tolerance_c6.2.2 envContainer 1 (some 0) ["g1"] "gx"
      [] (.api "boom") (by
        intro p hp
        simp only [List.mem_cons, List.not_mem_nil, or_false] at hp
        subst hp
        exact Or.inl ⟨([taskA], [.projectTasks "g1"]), rfl⟩)
      rfl (fun m h => Error.noConfusion h)

/-- The favorite-projects loop resolves to exactly the successes and the
failures of the input list, each group in input order, never aborting. -/
theorem resolveFavoriteProjects_eq (env : Env) :
    ∀ items : List FavoriteItem,
      resolveFavoriteProjects env items =
        (items.filterMap fun item =>
          match env.getProject item.gid with
          | .ok p => some p
          | .error _ => none,
         items.filterMap fun item =>
          match env.getProject item.gid with
          | .ok _ => none
          | .error e => some ⟨item, e.toMessage⟩) := by
  intro items
  induction items with
  | nil => simp [resolveFavoriteProjects]
  | cons item rest ih =>
    cases h : env.getProject item.gid with
    | ok p => simp [resolveFavoriteProjects, h, ih]
    | error e => simp [resolveFavoriteProjects, h, ih]

/-- The favorite-portfolios loop, likewise, given enough fuel for every
expansion to settle. -/
theorem resolveFavoritePortfolios_eq (env : Env) (fuel : Nat)
    (depth : Option Nat) :
    ∀ items : List FavoriteItem,
      (∀ item ∈ items, get_portfolio_recursive env fuel item.gid depth ≠ none) →
      resolveFavoritePortfolios env fuel depth items =
        some (items.filterMap fun item =>
          match get_portfolio_recursive env fuel item.gid depth with
          | some (.ok (p, _)) => some p
          | _ => none,
         items.filterMap fun item =>
          match get_portfolio_recursive env fuel item.gid depth with
          | some (.error e) => some ⟨item, e.toMessage⟩
          | _ => none) := by
  intro items
  induction items with
  | nil => intro _; simp [resolveFavoritePortfolios]
  | cons item rest ih =>
    intro h
    have hrest := ih fun item' h' => h item' (List.mem_cons_of_mem _ h')
    cases hp : get_portfolio_recursive env fuel item.gid depth with
    | none => exact absurd hp (h item (List.mem_cons_self _ _))
    | some r =>
      cases r with
      | ok pr =>
        obtain ⟨p, plog⟩ := pr
        simp [resolveFavoritePortfolios, hp, hrest]
      | error e => simp [resolveFavoritePortfolios, hp, hrest]

/-- C5: batch resolution of favorites records each per-item failure as a
(reference, error text) entry and keeps going; the whole call returns the
resolved projects, the resolved portfolios, and the failures, each group in
the input order of its references. -/
theorem favorites_tolerance_c5 :
    (∀ (env : Env) (items : List FavoriteItem),
      resolveFavoriteProjects env items =
        (items.filterMap fun item =>
          match env.getProject item.gid with
          | .ok p => some p
          | .error _ => none,
         items.filterMap fun item =>
          match env.getProject item.gid with
          | .ok _ => none
          | .error e => some ⟨item, e.toMessage⟩)) ∧
    (∀ (env : Env) (fuel : Nat) (ws : String) (d : Option Int)
        (l1 l2 : List FavoriteItem),
      env.getFavorites ws "project" = .ok l1 →
      env.getFavorites ws "portfolio" = .ok l2 →
      (∀ item ∈ l2, get_portfolio_recursive env fuel item.gid
        (depth_to_option (d.getD 0)) ≠ none) →
      workspaceFavorites env fuel ws d =
        some (.ok ⟨
          l1.filterMap fun item =>
            match env.getProject item.gid with
            | .ok p => some p
            | .error _ => none,
          l2.filterMap fun item =>
            match get_portfolio_recursive env fuel item.gid
              (depth_to_option (d.getD 0)) with
            | some (.ok (p, _)) => some p
            | _ => none,
          (l1.filterMap fun item =>
            match env.getProject item.gid with
            | .ok _ => none
            | .error e => some ⟨item, e.toMessage⟩) ++
          (l2.filterMap fun item =>
            match get_portfolio_recursive env fuel item.gid
              (depth_to_option (d.getD 0)) with
            | some (.error e) => some ⟨item, e.toMessage⟩
            | _ => none)⟩)) := by
  refine ⟨fun env items => resolveFavoriteProjects_eq env items,
    fun env fuel ws d l1 l2 h1 h2 hf => ?_⟩
  simp [workspaceFavorites, h1, h2, resolveFavoriteProjects_eq env l1,
    resolveFavoritePortfolios_eq env fuel (depth_to_option (d.getD 0)) l2 hf]

/-- Witness for C5: three favorite project references, only the second
failing — two successes in their original order and exactly one failure
entry naming the second reference. -/
theorem favorites_tolerance_c5_witness :
    workspaceFavorites envFavorites 1 "ws" none =
      some (.ok ⟨[favRes1, favRes3], [],
        [⟨favRef2, "resource not found: nope"⟩]⟩) := by
  have h := favorites_tolerance_c5.2 envFavorites 1 "ws" none
    [favRef1, favRef2, favRef3] [] rfl rfl (by simp)
  exact h.trans rfl

/-- The task loop agrees with the spec-level flattening `flatSpecGo`, given
that the recursive calls agree and the gate matches the current depth. -/
theorem expandTasksLoop_go (env : Env) (subs : String → List Resource)
    (hsubs : ∀ g, env.getSubtasks g = .ok (subs g)) (sd : Option Int)
    (recurse : List Resource → Option Int → Nat →
      Option (Except Error (List Resource × List Req)))
    (descend : List Resource → Nat → Option (List Resource × List Req))
    (hrec : ∀ ts c, recurse ts sd c = (descend ts c).map Except.ok)
    (cur : Nat) (should : Bool)
    (hshould : should = (match subtaskDepthToMax sd with
      | none => true
      | some max => decide (cur < max))) :
    ∀ tasks : List Resource,
      expandTasksLoop env recurse sd cur should tasks =
        (flatSpecGo subs (subtaskDepthToMax sd) descend cur tasks).map Except.ok := by
  subst hshould
  intro tasks
  induction tasks with
  | nil => simp [expandTasksLoop, flatSpecGo]
  | cons t rest ih =>
    by_cases hcond : ((match subtaskDepthToMax sd with
        | none => true
        | some max => decide (cur < max)) && decide (0 < numSubtasksHint t)) = true
    · cases hdesc : descend (subs t.gid) (cur + 1) with
      | none =>
        have hrt := (hrec (subs t.gid) (cur + 1)).trans (by rw [hdesc])
        simp [expandTasksLoop, flatSpecGo, hcond, hsubs t.gid, hrt, hdesc]
      | some pr =>
        obtain ⟨ds, dl⟩ := pr
        have hrt := (hrec (subs t.gid) (cur + 1)).trans (by rw [hdesc])
        cases hgo : flatSpecGo subs (subtaskDepthToMax sd) descend cur rest with
        | none =>
          simp [expandTasksLoop, flatSpecGo, hcond, hsubs t.gid, hrt, hdesc,
            ih, hgo]
        | some pr2 =>
          obtain ⟨tl, tlog⟩ := pr2
          simp [expandTasksLoop, flatSpecGo, hcond, hsubs t.gid, hrt, hdesc,
            ih, hgo]
    · cases hgo : flatSpecGo subs (subtaskDepthToMax sd) descend cur rest with
      | none => simp [expandTasksLoop, flatSpecGo, hcond, ih, hgo]
      | some pr2 =>
        obtain ⟨tl, tlog⟩ := pr2
        simp [expandTasksLoop, flatSpecGo, hcond, ih, hgo]

/-- C9: the task expander refines the spec-level depth-first flattening —
on a service whose subtask endpoint always succeeds, its result is exactly
`flatSpecModel` (parent immediately followed by its expanded descendants,
subtasks fetched exactly when the hint is nonzero and the depth gate
passes); a zero-hint task contributes only itself, and a negative subtask
depth converts to the unlimited gate. -/
theorem subtask_flattening_c9 :
    (∀ (env : Env) (subs : String → List Resource),
      (∀ g, env.getSubtasks g = .ok (subs g)) →
      ∀ (fuel cur : Nat) (tasks : List Resource) (sd : Option Int),
        expand_subtasks_flat env (fuel + 1) tasks sd cur =
          (flatSpecModel subs (subtaskDepthToMax sd) fuel cur tasks).map
            Except.ok) ∧
    (∀ (subs : String → List Resource) (maxd : Option Nat)
        (descend : List Resource → Nat → Option (List Resource × List Req))
        (cur : Nat) (t : Resource), numSubtasksHint t = 0 →
      flatSpecGo subs maxd descend cur [t] = some ([t], [])) ∧
    (∀ d : Int, d < 0 → subtaskDepthToMax (some d) = none) := by
  refine ⟨fun env subs hsubs fuel => ?_, fun subs maxd descend cur t h => ?_,
    fun d hd => by simp [subtaskDepthToMax, hd]⟩
  · induction fuel with
    | zero =>
      intro cur tasks sd
      exact expandTasksLoop_go env subs hsubs sd (expand_subtasks_flat env 0)
        (fun _ _ => none) (fun ts c => rfl) cur _ rfl tasks
    | succ f ih =>
      intro cur tasks sd
      exact expandTasksLoop_go env subs hsubs sd (expand_subtasks_flat env (f + 1))
        (fun ts c => flatSpecModel subs (subtaskDepthToMax sd) f c ts)
        (fun ts c => ih c ts sd) cur _ rfl tasks
  · simp [flatSpecGo, h]

/-- Witness for C9: a parent with hint 2 is immediately followed by its two
subtasks, the zero-hint sibling contributes only itself, and depth −1 is
unlimited. -/
theorem subtask_flattening_c9_witness :
    expand_subtasks_flat envTasks 2 [taskT1, taskT2] (some (-1)) 0 =
      some (.ok ([taskT1, taskS1, taskS2, taskT2], [.taskSubtasks "t1"])) ∧
    flatSpecGo subsDemo none (fun _ _ => none) 0 [taskT2] =
      some ([taskT2], []) ∧
    subtaskDepthToMax (some (-1)) = none := by
  refine ⟨?_, ?_, ?_⟩
  · exact (subtask_flattening_c9.1 envTasks subsDemo (fun g => rfl) 1 0
      [taskT1, taskT2] (some (-1))).trans rfl
  · exact subtask_flattening_c9.2.1 subsDemo none (fun _ _ => none) 0 taskT2 rfl
  · exact subtask_flattening_c9.2.2 (-1) (by omega)

end Asana
